import Mathlib

/-!
Shallow embedding of the SQS listener core of `clutter` (src/clutter/aws/sqs.py):
the configuration consumption in `SqsListener.__init__`, the topology
bootstrap in `SqsListener._initialize_client`, and the per-message
processing of the poll loop in `SqsListener._start_listening`.

External collaborators (the boto3 SQS client, `json.loads`, the user-supplied
handler, and the `SqsLauncher` used for the error queue) are modelled as an
environment of oracle functions; the loop's own control flow, the calls it
issues and the data it passes are translated statement by statement from the
source.  Remote calls issued by the loop are recorded as a trace of `Action`
values; an uncaught Python exception is modelled by the second component of
the result being `some e`.
-/

namespace Clutter

/-- Values that can appear in the configuration mapping handed to
`SqsListener.__init__` (a Python dict).  `vnone` is Python `None`. -/
inductive ConfVal where
  | vstr (s : String)
  | vint (n : Int)
  | vbool (b : Bool)
  | vlist (l : List String)
  | vnone
  deriving DecidableEq, Repr

/-- Python `dict.pop(key)` on an association list: the looked-up value (if
any) together with the mapping with that entry removed. -/
def popKey : List (String × ConfVal) → String → Option ConfVal × List (String × ConfVal)
  | [], _ => (Option.none, [])
  | (a, v) :: rest, k =>
    if a == k then (Option.some v, rest)
    else
      let p := popKey rest k
      (p.1, (a, v) :: p.2)

/-- Python `dict.get(key, default)`. -/
def getKey (conf : List (String × ConfVal)) (k : String) (d : ConfVal) : ConfVal :=
  (conf.lookup k).getD d

/-- Failures that `SqsListener.__init__` can raise while consuming the
configuration: a `KeyError` from `dict.pop` on a missing key, or the
`AssertionError` from `assert self._queue_name is not None`. -/
inductive InitError where
  | keyError (k : String)
  | assertError (msg : String)
  deriving DecidableEq, Repr

/-- The listener attributes recorded by `SqsListener.__init__`
(lines 38-60 of sqs.py), with the raw configuration values. -/
structure SqsConfState where
  aws_access_key_id : ConfVal
  aws_secret_access_key : ConfVal
  queue_name : ConfVal
  poll_interval : ConfVal
  queue_visibility_timeout : ConfVal
  error_queue_name : ConfVal
  error_queue_visibility_timeout : ConfVal
  queue_url : ConfVal
  message_attribute_names : ConfVal
  attribute_names : ConfVal
  force_delete : ConfVal
  endpoint_name : ConfVal
  wait_time : ConfVal
  max_number_of_messages : ConfVal
  region_name : ConfVal
  deriving DecidableEq, Repr

/-- Embedding of the configuration consumption in `SqsListener.__init__`:
`conf.pop("aws.access.key.id")` and `conf.pop("aws.secret.key.id")` (no
default, so a missing key raises `KeyError`), then `conf.pop("queue")`
followed by the assertion that it is not `None`, then the `conf.get`
calls with their defaults.  `sessionRegion` stands for
`self._session.region_name`, the default of the final `region_name` get. -/
def sqsInit (conf0 : List (String × ConfVal)) (sessionRegion : ConfVal) :
    Except InitError SqsConfState :=
  match (popKey conf0 "aws.access.key.id").1 with
  | Option.none => Except.error (InitError.keyError "aws.access.key.id")
  | Option.some access =>
    let conf1 := (popKey conf0 "aws.access.key.id").2
    match (popKey conf1 "aws.secret.key.id").1 with
    | Option.none => Except.error (InitError.keyError "aws.secret.key.id")
    | Option.some secret =>
      let conf2 := (popKey conf1 "aws.secret.key.id").2
      match (popKey conf2 "queue").1 with
      | Option.none => Except.error (InitError.keyError "queue")
      | Option.some qn =>
        let conf3 := (popKey conf2 "queue").2
        if qn = ConfVal.vnone then Except.error (InitError.assertError "queue required!")
        else Except.ok {
          aws_access_key_id := access
          aws_secret_access_key := secret
          queue_name := qn
          poll_interval := getKey conf3 "interval" (ConfVal.vint 60)
          queue_visibility_timeout := getKey conf3 "visibility_timeout" (ConfVal.vstr "600")
          error_queue_name := getKey conf3 "error_queue" ConfVal.vnone
          error_queue_visibility_timeout :=
            getKey conf3 "error_visibility_timeout" (ConfVal.vstr "600")
          queue_url := getKey conf3 "queue_url" ConfVal.vnone
          message_attribute_names := getKey conf3 "message_attribute_names" (ConfVal.vlist [])
          attribute_names := getKey conf3 "attribute_names" (ConfVal.vlist [])
          force_delete := getKey conf3 "force_delete" (ConfVal.vbool false)
          endpoint_name := getKey conf3 "endpoint_name" ConfVal.vnone
          wait_time := getKey conf3 "wait_time" (ConfVal.vint 0)
          max_number_of_messages := getKey conf3 "max_number_of_messages" (ConfVal.vint 1)
          region_name := getKey conf3 "region_name" sessionRegion
        }

/-- The listener state used by `_initialize_client` and `_start_listening`,
with the field types those methods rely on (a well-typed configuration). -/
structure Listener where
  queue_name : String
  poll_interval : Int
  queue_visibility_timeout : String
  error_queue_name : Option String
  error_queue_visibility_timeout : String
  queue_url : Option String
  message_attribute_names : List String
  attribute_names : List String
  force_delete : Bool
  wait_time : Int
  max_number_of_messages : Int
  deriving DecidableEq, Repr

/-- Python truthiness of an optional string, as in
`if self._error_queue_name:` — `None` and the empty string are falsy. -/
def truthyName : Option String → Bool
  | Option.none => false
  | Option.some s => !(s == "")

/-- Characters after the last slash, accumulator-style. -/
def lastComponentAux : List Char → List Char → List Char
  | [], acc => acc.reverse
  | c :: rest, acc =>
    if c = '/' then lastComponentAux rest []
    else lastComponentAux rest (c :: acc)

/-- Python `q.split("/")[-1]`: the queue name at the end of a queue URL. -/
def qnameOfUrl (u : String) : String :=
  String.mk (lastComponentAux u.data [])

/-- Python `s.endswith(".fifo")`. -/
def endsWithFifo (s : String) : Bool :=
  List.isSuffixOf ".fifo".data s.data

/-- One `create_queue` call issued by `_initialize_client`: the queue name
and the entries of the `Attributes` dict, in the order they are written. -/
structure CreateCall where
  queueName : String
  attrs : List (String × String)
  deriving DecidableEq, Repr

/-- The `create_queue` call for the main queue (lines 89-105): names ending
in `.fifo` get `VisibilityTimeout` and `FifoQueue`, all others only
`VisibilityTimeout`. -/
def mainCreateCall (st : Listener) : CreateCall :=
  if endsWithFifo st.queue_name then
    { queueName := st.queue_name
      attrs := [("VisibilityTimeout", st.queue_visibility_timeout), ("FifoQueue", "true")] }
  else
    { queueName := st.queue_name
      attrs := [("VisibilityTimeout", st.queue_visibility_timeout)] }

/-- The `create_queue` call for the error queue (lines 110-113): always only
`VisibilityTimeout`, and note the source passes
`self._queue_visibility_timeout`, the main queue's timeout. -/
def errorCreateCall (st : Listener) : CreateCall :=
  { queueName := st.error_queue_name.getD ""
    attrs := [("VisibilityTimeout", st.queue_visibility_timeout)] }

/-- Embedding of `SqsListener._initialize_client` (lines 63-115), minus the
session plumbing: `remoteQueueUrls` is what `sqs.list_queues()` reports,
`mkUrl` the URL the remote side assigns to a newly created queue.  Returns
the `create_queue` calls issued and the updated listener state (only
`_queue_url` can change). -/
def initClient (st : Listener) (remoteQueueUrls : List String) (mkUrl : String → String) :
    List CreateCall × Listener :=
  let mainQueueExists := remoteQueueUrls.any (fun u => qnameOfUrl u == st.queue_name)
  let errorQueueExists := remoteQueueUrls.any (fun u =>
    truthyName st.error_queue_name && (Option.some (qnameOfUrl u) == st.error_queue_name))
  let step1 : List CreateCall × Listener :=
    match st.queue_url with
    | Option.some _ => ([], st)
    | Option.none =>
      if mainQueueExists then ([], st)
      else ([mainCreateCall st], { st with queue_url := Option.some (mkUrl st.queue_name) })
  let calls2 : List CreateCall :=
    if truthyName step1.2.error_queue_name && !errorQueueExists then [errorCreateCall step1.2]
    else []
  (step1.1 ++ calls2, step1.2)

/-- The arguments of the `receive_message` call at the top of every
`_start_listening` iteration (lines 122-128). -/
structure ReceiveCall where
  queueUrl : Option String
  messageAttributeNames : List String
  attributeNames : List String
  waitTimeSeconds : Int
  maxNumberOfMessages : Int
  deriving DecidableEq, Repr

/-- The receive call built from the listener state; the state is read-only
inside the loop, so every iteration issues this same call. -/
def receiveCall (st : Listener) : ReceiveCall :=
  { queueUrl := st.queue_url
    messageAttributeNames := st.message_attribute_names
    attributeNames := st.attribute_names
    waitTimeSeconds := st.wait_time
    maxNumberOfMessages := st.max_number_of_messages }

/-- A string-to-string mapping, as delivered for `MessageAttributes` and
`Attributes`. -/
abbrev Attribs := List (String × String)

/-- One message of a `receive_message` response.  The optional fields model
the presence of the `MessageAttributes` and `Attributes` keys in the
message dict: `none` when the service omitted the key. -/
structure Message where
  receiptHandle : String
  body : String
  messageAttributes : Option Attribs
  attributes : Option Attribs
  deriving DecidableEq, Repr

/-- A decoded JSON body as produced by `json.loads`.  The loop never
inspects it, only threads it to the handler; the cases cover the bodies
used in the scenarios. -/
inductive JsonVal where
  | jobj (fields : List (String × String))
  | jstr (s : String)
  | jnum (n : Int)
  deriving DecidableEq, Repr

/-- A Python exception value: the name of its class and its `args` tuple
(restricted to string arguments, as in the scenarios). -/
structure PyExc where
  clsName : String
  args : List String
  deriving DecidableEq, Repr

/-- A single-quote character, kept out of string literals. -/
def sq : String := String.singleton (Char.ofNat 39)

/-- Python `str(exc_type)` for `exc_type` the class of the exception, as
obtained from `sys.exc_info()`: for `ValueError` this is
`<class 'ValueError'>`, not the bare name. -/
def pyStrOfExcClass (e : PyExc) : String :=
  "<class " ++ sq ++ e.clsName ++ sq ++ ">"

/-- Python `repr` of a string (assuming no quotes or escapes inside). -/
def pyReprStr (s : String) : String := sq ++ s ++ sq

/-- Python `str` of the `args` tuple of an exception: `()`, a one-element
tuple `(x,)`, or `(x, y, ...)`. -/
def pyReprArgs : List String → String
  | [] => "()"
  | [a] => "(" ++ pyReprStr a ++ ",)"
  | a :: b :: rest => "(" ++ String.intercalate ", " (List.map pyReprStr (a :: b :: rest)) ++ ")"

/-- The payload published to the error queue on handler failure
(line 165 of sqs.py). -/
structure FailureRecord where
  exception_type : String
  error_message : String
  deriving DecidableEq, Repr

/-- The failure record built at lines 164-166:
`{"exception_type": str(exc_type), "error_message": str(ex.args)}`. -/
def mkFailureRecord (ex : PyExc) : FailureRecord :=
  { exception_type := pyStrOfExcClass ex
    error_message := pyReprArgs ex.args }

/-- The observable calls issued while processing one received batch, in
program order. -/
inductive Action where
  | deleteMessage (queueUrl : Option String) (receiptHandle : String)
  | handleMessage (body : JsonVal) (messageAttribs : Option Attribs) (attribs : Option Attribs)
  | logWarning (msg : String)
  | logException (e : PyExc)
  | logInfo (msg : String)
  | publishToErrorQueue (queue : String) (payload : FailureRecord)
  deriving DecidableEq, Repr

/-- The external collaborators of the poll loop: the JSON decoder, the
user-supplied handler, and the outcomes of the remote delete and
error-queue publish calls.  `Except.error e` models the call raising the
Python exception `e`. -/
structure Env where
  jsonLoads : String → Option JsonVal
  handle : JsonVal → Option Attribs → Option Attribs → Except PyExc Unit
  deleteResult : String → Except PyExc Unit
  publishResult : FailureRecord → Except PyExc Unit

/-- The `try` block at lines 149-155: under `force_delete` delete then
handle, otherwise handle then delete.  Returns the calls issued and the
exception, if any, escaping the block. -/
def tryBlock (st : Listener) (env : Env) (receipt : String) (pd : JsonVal)
    (ma : Option Attribs) (ab : Option Attribs) : List Action × Option PyExc :=
  if st.force_delete then
    match env.deleteResult receipt with
    | Except.error e => ([Action.deleteMessage st.queue_url receipt], Option.some e)
    | Except.ok _ =>
      match env.handle pd ma ab with
      | Except.error e =>
        ([Action.deleteMessage st.queue_url receipt, Action.handleMessage pd ma ab],
          Option.some e)
      | Except.ok _ =>
        ([Action.deleteMessage st.queue_url receipt, Action.handleMessage pd ma ab],
          Option.none)
  else
    match env.handle pd ma ab with
    | Except.error e => ([Action.handleMessage pd ma ab], Option.some e)
    | Except.ok _ =>
      match env.deleteResult receipt with
      | Except.error e =>
        ([Action.handleMessage pd ma ab, Action.deleteMessage st.queue_url receipt],
          Option.some e)
      | Except.ok _ =>
        ([Action.handleMessage pd ma ab, Action.deleteMessage st.queue_url receipt],
          Option.none)

/-- The warning logged when `json.loads` raises (line 143). -/
def parseWarnMsg : String := "Unable to parse message - JSON is not formatted properly"

/-- The info message logged before pushing to the error queue (line 162). -/
def pushInfoMsg : String := "Pushing exception to error queue"

/-- The body of the `for m in messages["Messages"]` loop (lines 133-166):
parse the body (on failure log and `continue`), read the optional
attribute keys, run the `try` block, and on an exception log it and — when
an error queue is configured — publish the failure record, whose own
failure is caught by nothing and escapes.  Returns the calls issued for
this message and the exception, if any, propagating out of the loop. -/
def processMessage (st : Listener) (env : Env) (m : Message) : List Action × Option PyExc :=
  match env.jsonLoads m.body with
  | Option.none => ([Action.logWarning parseWarnMsg], Option.none)
  | Option.some pd =>
    let ma := m.messageAttributes
    let ab := m.attributes
    let r := tryBlock st env m.receiptHandle pd ma ab
    match r.2 with
    | Option.none => (r.1, Option.none)
    | Option.some ex =>
      let acts := r.1 ++ [Action.logException ex]
      if truthyName st.error_queue_name then
        let record := mkFailureRecord ex
        let acts := acts ++
          [Action.logInfo pushInfoMsg,
           Action.publishToErrorQueue (st.error_queue_name.getD "") record]
        match env.publishResult record with
        | Except.ok _ => (acts, Option.none)
        | Except.error e => (acts, Option.some e)
      else (acts, Option.none)

/-- The whole `for m in messages["Messages"]` loop over one received batch:
messages are processed in order, and an exception propagating out of one
message's processing aborts the rest of the batch (and the poll loop). -/
def processBatch (st : Listener) (env : Env) : List Message → List Action × Option PyExc
  | [] => ([], Option.none)
  | m :: ms =>
    let r := processMessage st env m
    match r.2 with
    | Option.some e => (r.1, Option.some e)
    | Option.none =>
      let rs := processBatch st env ms
      (r.1 ++ rs.1, rs.2)

/-- Count of delete calls for a given receipt handle in a trace. -/
def countDeletesFor (h : String) (acts : List Action) : Nat :=
  acts.countP (fun a =>
    match a with
    | Action.deleteMessage _ r => r == h
    | _ => false)

/-- The error-queue publishes appearing in a trace, with their payloads. -/
def publishCalls (acts : List Action) : List (String × FailureRecord) :=
  acts.filterMap (fun a =>
    match a with
    | Action.publishToErrorQueue q rec => Option.some (q, rec)
    | _ => Option.none)

/-- Whether a trace contains any handler invocation. -/
def handleCalls (acts : List Action) : List (JsonVal × Option Attribs × Option Attribs) :=
  acts.filterMap (fun a =>
    match a with
    | Action.handleMessage pd ma ab => Option.some (pd, ma, ab)
    | _ => Option.none)

/-! ### Helper lemmas -/

theorem popKey_fst (k : String) :
    ∀ conf : List (String × ConfVal), (popKey conf k).1 = conf.lookup k
  | [] => rfl
  | (a, v) :: rest => by
    by_cases hak : a = k
    · subst hak
      simp [popKey, List.lookup]
    · have h1 : (a == k) = false := beq_eq_false_iff_ne.mpr hak
      have h2 : (k == a) = false := beq_eq_false_iff_ne.mpr (Ne.symm hak)
      simp [popKey, List.lookup, h1, h2, popKey_fst k rest]

theorem popKey_lookup_ne (k q : String) (hne : q ≠ k) :
    ∀ conf : List (String × ConfVal), ((popKey conf k).2).lookup q = conf.lookup q
  | [] => rfl
  | (a, v) :: rest => by
    by_cases hak : a = k
    · subst hak
      have h2 : (q == a) = false := beq_eq_false_iff_ne.mpr hne
      simp [popKey, List.lookup, h2]
    · have h1 : (a == k) = false := beq_eq_false_iff_ne.mpr hak
      simp [popKey, List.lookup, h1, popKey_lookup_ne k q hne rest]

theorem countDeletesFor_append (h : String) (l1 l2 : List Action) :
    countDeletesFor h (l1 ++ l2) = countDeletesFor h l1 + countDeletesFor h l2 := by
  unfold countDeletesFor
  exact List.countP_append _ _ _

theorem handleCalls_append (l1 l2 : List Action) :
    handleCalls (l1 ++ l2) = handleCalls l1 ++ handleCalls l2 := by
  unfold handleCalls
  exact List.filterMap_append _ _ _

theorem publishCalls_append (l1 l2 : List Action) :
    publishCalls (l1 ++ l2) = publishCalls l1 ++ publishCalls l2 := by
  unfold publishCalls
  exact List.filterMap_append _ _ _

/-- After a successful parse, the trace of `processMessage` is the trace of
the `try` block followed by a tail of logging/publish actions only: the
tail contains no delete and no handler call. -/
theorem processMessage_trace (st : Listener) (env : Env) (m : Message) (pd : JsonVal)
    (hp : env.jsonLoads m.body = Option.some pd) :
    ∃ tail : List Action,
      (processMessage st env m).1 =
        (tryBlock st env m.receiptHandle pd m.messageAttributes m.attributes).1 ++ tail ∧
      (∀ h, countDeletesFor h tail = 0) ∧ handleCalls tail = [] := by
  unfold processMessage
  rw [hp]
  cases hex : (tryBlock st env m.receiptHandle pd m.messageAttributes m.attributes).2 with
  | none =>
    refine ⟨[], ?_, fun h => rfl, rfl⟩
    simp [hex]
  | some ex =>
    by_cases htr : truthyName st.error_queue_name
    · cases hpub : env.publishResult (mkFailureRecord ex) with
      | ok u =>
        refine ⟨[Action.logException ex, Action.logInfo pushInfoMsg,
          Action.publishToErrorQueue (st.error_queue_name.getD "") (mkFailureRecord ex)], ?_, ?_, ?_⟩
        · simp only [hex, htr, if_true, mkFailureRecord] at hpub ⊢
          rw [hpub]
          simp
        · intro h; rfl
        · rfl
      | error e =>
        refine ⟨[Action.logException ex, Action.logInfo pushInfoMsg,
          Action.publishToErrorQueue (st.error_queue_name.getD "") (mkFailureRecord ex)], ?_, ?_, ?_⟩
        · simp only [hex, htr, if_true, mkFailureRecord] at hpub ⊢
          rw [hpub]
          simp
        · intro h; rfl
        · rfl
    · refine ⟨[Action.logException ex], ?_, fun h => rfl, rfl⟩
      simp [hex, htr]

/-- The `try` block issues at most one delete call, and only for its own
receipt handle. -/
theorem tryBlock_deletes_le (st : Listener) (env : Env) (receipt : String) (pd : JsonVal)
    (ma : Option Attribs) (ab : Option Attribs) (h : String) :
    countDeletesFor h (tryBlock st env receipt pd ma ab).1 ≤
      if receipt = h then 1 else 0 := by
  unfold tryBlock countDeletesFor
  by_cases hr : receipt = h <;>
    cases hfd : st.force_delete <;>
      simp only [hfd, if_true, if_false, Bool.false_eq_true] <;>
        cases env.handle pd ma ab <;>
          cases env.deleteResult receipt <;>
            simp [List.countP_cons, List.countP_nil, hr]

/-- Every handler call issued by the `try` block carries exactly the decoded
body and the two optional attribute mappings it was given. -/
theorem tryBlock_handleCalls (st : Listener) (env : Env) (receipt : String) (pd : JsonVal)
    (ma : Option Attribs) (ab : Option Attribs) :
    ∀ c ∈ handleCalls (tryBlock st env receipt pd ma ab).1, c = (pd, ma, ab) := by
  unfold tryBlock handleCalls
  cases hfd : st.force_delete <;>
    simp only [hfd, if_true, if_false, Bool.false_eq_true] <;>
      cases env.handle pd ma ab <;>
        cases env.deleteResult receipt <;>
          simp [List.filterMap]

/-- `processMessage` issues at most one delete call, only for the message's
own receipt handle. -/
theorem processMessage_deletes_le (st : Listener) (env : Env) (m : Message) (h : String) :
    countDeletesFor h (processMessage st env m).1 ≤
      if m.receiptHandle = h then 1 else 0 := by
  cases hp : env.jsonLoads m.body with
  | none =>
    unfold processMessage
    rw [hp]
    simp [countDeletesFor, List.countP_cons, List.countP_nil]
  | some pd =>
    obtain ⟨tail, htr, hcnt, -⟩ := processMessage_trace st env m pd hp
    rw [htr, countDeletesFor_append, hcnt h, Nat.add_zero]
    exact tryBlock_deletes_le st env m.receiptHandle pd m.messageAttributes m.attributes h

/-- Across one received batch, the number of delete calls for a handle is
bounded by the number of batch messages carrying that handle. -/
theorem processBatch_deletes_le (st : Listener) (env : Env) (h : String) :
    ∀ batch : List Message,
      countDeletesFor h (processBatch st env batch).1 ≤
        (batch.map Message.receiptHandle).count h
  | [] => by simp [processBatch, countDeletesFor]
  | m :: ms => by
    have h1 := processMessage_deletes_le st env m h
    have h2 := processBatch_deletes_le st env h ms
    unfold processBatch
    cases hr : (processMessage st env m).2 with
    | some e =>
      simp only [hr, List.map_cons, List.count_cons]
      refine le_trans h1 ?_
      by_cases hmh : m.receiptHandle = h <;> simp [hmh]
    | none =>
      simp only [hr, countDeletesFor_append, List.map_cons, List.count_cons]
      by_cases hmh : m.receiptHandle = h <;>
        simp only [hmh] at h1 ⊢ <;> simp at h1 ⊢ <;> omega

/-! ### Concrete inputs used by counterexamples and witnesses -/

/-- URL assigned by the remote side to a newly created queue. -/
def mkUrlC (n : String) : String := "https://created/" ++ n

/-- A baseline listener state: queue "orders", defaults everywhere else. -/
def stBase : Listener :=
  { queue_name := "orders"
    poll_interval := 60
    queue_visibility_timeout := "600"
    error_queue_name := Option.none
    error_queue_visibility_timeout := "600"
    queue_url := Option.none
    message_attribute_names := []
    attribute_names := []
    force_delete := false
    wait_time := 0
    max_number_of_messages := 1 }

/-- Listener with an error queue configured and a resolved queue URL. -/
def stErrQ : Listener :=
  { stBase with
    error_queue_name := Option.some "orders-errors"
    queue_url := Option.some "https://created/orders" }

/-- Listener whose error queue name carries the FIFO suffix; the main queue
URL was supplied explicitly. -/
def stFifoErr : Listener :=
  { stBase with
    error_queue_name := Option.some "errors.fifo"
    queue_url := Option.some "https://created/orders" }

/-- The remote side already has the "orders" queue. -/
def remoteWithOrders : List String :=
  ["https://sqs.us-east-1.amazonaws.com/123456789012/orders"]

/-- Handler exception used in scenarios: `ValueError("bad id")`. -/
def excValueError : PyExc := { clsName := "ValueError", args := ["bad id"] }

/-- Exception raised by the failing error-queue publish. -/
def excPublish : PyExc := { clsName := "EndpointConnectionError", args := ["no network"] }

/-- Decoded scenario body. -/
def bodyVal : JsonVal := JsonVal.jobj [("id", "42")]

/-- Environment where everything succeeds. -/
def envOk : Env :=
  { jsonLoads := fun _ => Option.some bodyVal
    handle := fun _ _ _ => Except.ok ()
    deleteResult := fun _ => Except.ok ()
    publishResult := fun _ => Except.ok () }

/-- Environment where the handler raises `ValueError("bad id")`. -/
def envValErr : Env :=
  { envOk with handle := fun _ _ _ => Except.error excValueError }

/-- Environment where the handler raises and the error-queue publish also
raises. -/
def envPubFail : Env :=
  { envValErr with publishResult := fun _ => Except.error excPublish }

/-- Environment where every body fails to parse. -/
def envBadJson : Env :=
  { envOk with jsonLoads := fun _ => Option.none }

/-- Scenario message, body `{"id": 42}`, no optional attribute keys. -/
def msgA : Message :=
  { receiptHandle := "rh-a"
    body := "\x7b\x22id\x22: 42\x7d"
    messageAttributes := Option.none
    attributes := Option.none }

/-- A second message in the same batch. -/
def msgB : Message :=
  { msgA with receiptHandle := "rh-b" }

/-! ### Claim theorems -/

/-- C1 (code bug): when the main queue already exists on the remote side and
no explicit queue URL was supplied, `_initialize_client` issues no
`create_queue` call and — because `self._queue_url = q["QueueUrl"]` sits
inside the `if not mainQueueExists` branch — leaves the queue URL unset,
so every subsequent `receive_message` call of the poll loop is passed
`None` as its `QueueUrl` instead of the resolved URL. -/
theorem queue_url_unset_when_main_queue_exists :
    (initClient stBase remoteWithOrders mkUrlC).1 = [] ∧
    (initClient stBase remoteWithOrders mkUrlC).2.queue_url = Option.none ∧
    (receiveCall (initClient stBase remoteWithOrders mkUrlC).2).queueUrl = Option.none := by
  decide

/-- C4 (counterexample): a configuration mapping that supplies the queue
name but omits the aws credential keys does not construct — the very first
`conf.pop("aws.access.key.id")` raises `KeyError`, although the claim says
every key other than the queue name may be omitted. -/
theorem init_requires_credential_keys_cex :
    sqsInit [("queue", ConfVal.vstr "orders")] ConfVal.vnone =
      Except.error (InitError.keyError "aws.access.key.id") := by
  rfl

/-- C4 (amended): besides the queue name, the keys `aws.access.key.id` and
`aws.secret.key.id` must be present in the configuration (their values may
be anything, including None); with both present, a missing `queue` key
fails with `KeyError`, a `queue` key bound to None fails the assertion
`queue required!`, and any other `queue` value constructs successfully
with that value recorded as the queue name. -/
theorem init_key_requirements (conf : List (String × ConfVal)) (sr : ConfVal)
    (ha : (conf.lookup "aws.access.key.id").isSome = true)
    (hs : (conf.lookup "aws.secret.key.id").isSome = true) :
    (conf.lookup "queue" = Option.none →
      sqsInit conf sr = Except.error (InitError.keyError "queue")) ∧
    (conf.lookup "queue" = Option.some ConfVal.vnone →
      sqsInit conf sr = Except.error (InitError.assertError "queue required!")) ∧
    (∀ v, conf.lookup "queue" = Option.some v → v ≠ ConfVal.vnone →
      ∃ s, sqsInit conf sr = Except.ok s ∧ s.queue_name = v) := by
  obtain ⟨a, hae⟩ := Option.isSome_iff_exists.mp ha
  obtain ⟨b, hbe⟩ := Option.isSome_iff_exists.mp hs
  have hk1 : (popKey conf "aws.access.key.id").1 = Option.some a := by
    rw [popKey_fst]; exact hae
  have hk2 : (popKey (popKey conf "aws.access.key.id").2 "aws.secret.key.id").1 =
      Option.some b := by
    rw [popKey_fst, popKey_lookup_ne _ _ (by decide)]; exact hbe
  have hq :
      (popKey ((popKey (popKey conf "aws.access.key.id").2 "aws.secret.key.id").2) "queue").1 =
        conf.lookup "queue" := by
    rw [popKey_fst, popKey_lookup_ne _ _ (by decide), popKey_lookup_ne _ _ (by decide)]
  refine ⟨?_, ?_, ?_⟩
  · intro hqe
    rw [hqe] at hq
    unfold sqsInit
    simp only [hk1, hk2, hq]
  · intro hqe
    rw [hqe] at hq
    unfold sqsInit
    simp [hk1, hk2, hq]
  · intro v hqe hvn
    rw [hqe] at hq
    unfold sqsInit
    simp only [hk1, hk2, hq]
    rw [if_neg hvn]
    exact ⟨_, rfl, rfl⟩

/-- A complete configuration, for the C4 witness. -/
def confFull : List (String × ConfVal) :=
  [("aws.access.key.id", ConfVal.vstr "AKIA"),
   ("aws.secret.key.id", ConfVal.vstr "SECRET"),
   ("queue", ConfVal.vstr "orders")]

/-- C4 witness: the amended rule applied to a concrete full configuration. -/
theorem init_key_requirements_witness :
    ∃ s, sqsInit confFull (ConfVal.vstr "us-east-1") = Except.ok s ∧
      s.queue_name = ConfVal.vstr "orders" :=
  (init_key_requirements confFull (ConfVal.vstr "us-east-1") (by decide) (by decide)).2.2
    (ConfVal.vstr "orders") (by decide) (by decide)

/-- C8 (counterexample): an error queue whose name ends in the FIFO marker
suffix is nevertheless created without the `FifoQueue` attribute — the
error-queue creation at lines 110-113 has no FIFO inference, so "likewise"
fails. -/
theorem error_queue_fifo_cex :
    endsWithFifo "errors.fifo" = true ∧
    (initClient stFifoErr [] mkUrlC).1 =
      [{ queueName := "errors.fifo", attrs := [("VisibilityTimeout", "600")] }] ∧
    ("FifoQueue", "true") ∉ (errorCreateCall stFifoErr).attrs := by
  decide

/-- C8 (amended): the main queue's create call applies suffix-based FIFO
inference — `VisibilityTimeout` plus `FifoQueue` when the name ends in
`.fifo`, only `VisibilityTimeout` otherwise — while the error queue's
create call always carries only `VisibilityTimeout` (and with the main
queue's visibility timeout), with no FIFO inference; and every create call
issued by `_initialize_client` is one of these two. -/
theorem create_call_attributes (st : Listener) (remote : List String)
    (mkUrl : String → String) :
    ((mainCreateCall st).attrs =
      if endsWithFifo st.queue_name then
        [("VisibilityTimeout", st.queue_visibility_timeout), ("FifoQueue", "true")]
      else [("VisibilityTimeout", st.queue_visibility_timeout)]) ∧
    ((errorCreateCall st).attrs = [("VisibilityTimeout", st.queue_visibility_timeout)]) ∧
    (∀ c ∈ (initClient st remote mkUrl).1, c = mainCreateCall st ∨ c = errorCreateCall st) := by
  refine ⟨?_, rfl, ?_⟩
  · unfold mainCreateCall
    by_cases hf : endsWithFifo st.queue_name <;> simp [hf]
  · intro c hc
    unfold initClient at hc
    simp only at hc
    cases hqu : st.queue_url with
    | some u =>
      rw [hqu] at hc
      simp only [List.nil_append] at hc
      by_cases he : truthyName st.error_queue_name &&
          !(remote.any (fun u => truthyName st.error_queue_name &&
            (Option.some (qnameOfUrl u) == st.error_queue_name)))
      · rw [if_pos he] at hc
        right
        simpa using hc
      · rw [if_neg he] at hc
        exact absurd hc (List.not_mem_nil c)
    | none =>
      rw [hqu] at hc
      by_cases hm : remote.any (fun u => qnameOfUrl u == st.queue_name)
      · rw [if_pos hm] at hc
        simp only [List.nil_append] at hc
        by_cases he : truthyName st.error_queue_name &&
            !(remote.any (fun u => truthyName st.error_queue_name &&
              (Option.some (qnameOfUrl u) == st.error_queue_name)))
        · rw [if_pos he] at hc
          right
          simpa using hc
        · rw [if_neg he] at hc
          exact absurd hc (List.not_mem_nil c)
      · rw [if_neg hm] at hc
        by_cases he : truthyName st.error_queue_name &&
            !(remote.any (fun u => truthyName st.error_queue_name &&
              (Option.some (qnameOfUrl u) == st.error_queue_name)))
        · rw [if_pos he] at hc
          rcases List.mem_append.mp hc with h | h
          · left
            have : c = mainCreateCall st := by simpa using h
            exact this
          · right
            have : c = errorCreateCall
                { st with queue_url := Option.some (mkUrl st.queue_name) } := by simpa using h
            rw [this]
            rfl
        · rw [if_neg he] at hc
          rcases List.mem_append.mp hc with h | h
          · left
            simpa using h
          · exact absurd h (List.not_mem_nil c)

/-- C8 witness: the amended characterization applied to the concrete listener
whose error queue name is `errors.fifo`, at the error-queue create call. -/
theorem create_call_attributes_witness :
    errorCreateCall stFifoErr = mainCreateCall stFifoErr ∨
      errorCreateCall stFifoErr = errorCreateCall stFifoErr :=
  (create_call_attributes stFifoErr [] mkUrlC).2.2 (errorCreateCall stFifoErr) (by decide)

/-- Unfolding equation of `processBatch` on a non-empty batch. -/
theorem processBatch_cons (st : Listener) (env : Env) (m : Message) (ms : List Message) :
    processBatch st env (m :: ms) =
      match (processMessage st env m).2 with
      | Option.some e => ((processMessage st env m).1, Option.some e)
      | Option.none =>
        ((processMessage st env m).1 ++ (processBatch st env ms).1,
          (processBatch st env ms).2) := rfl

/-- The `try` block issues no error-queue publish. -/
theorem tryBlock_publishCalls (st : Listener) (env : Env) (receipt : String) (pd : JsonVal)
    (ma : Option Attribs) (ab : Option Attribs) :
    publishCalls (tryBlock st env receipt pd ma ab).1 = [] := by
  unfold tryBlock publishCalls
  cases hfd : st.force_delete <;>
    simp only [hfd, if_true, if_false, Bool.false_eq_true] <;>
      cases env.handle pd ma ab <;>
        cases env.deleteResult receipt <;>
          simp [List.filterMap]

/-- Listener with `force_delete` enabled. -/
def stForce : Listener := { stBase with force_delete := true }

/-- C5: with forceDelete false, for every received message with a parsable
body, the delete call for that message's receipt handle is issued if and
only if the handler invocation completes without raising. -/
theorem delete_iff_handler_ok (st : Listener) (env : Env) (m : Message) (pd : JsonVal)
    (hfd : st.force_delete = false)
    (hp : env.jsonLoads m.body = Option.some pd) :
    0 < countDeletesFor m.receiptHandle (processMessage st env m).1 ↔
      env.handle pd m.messageAttributes m.attributes = Except.ok () := by
  obtain ⟨tail, htr, hcnt, -⟩ := processMessage_trace st env m pd hp
  rw [htr, countDeletesFor_append, hcnt, Nat.add_zero]
  unfold tryBlock
  rw [hfd]
  simp only [Bool.false_eq_true, if_false]
  cases henv : env.handle pd m.messageAttributes m.attributes with
  | error e =>
    simp [countDeletesFor, List.countP_cons, List.countP_nil]
  | ok u =>
    cases u
    cases hdel : env.deleteResult m.receiptHandle <;>
      simp [countDeletesFor, List.countP_cons, List.countP_nil]

/-- C5 witness: concrete successful handling at forceDelete false. -/
theorem delete_iff_handler_ok_witness :
    0 < countDeletesFor msgA.receiptHandle (processMessage stBase envOk msgA).1 ↔
      envOk.handle bodyVal msgA.messageAttributes msgA.attributes = Except.ok () :=
  delete_iff_handler_ok stBase envOk msgA bodyVal rfl rfl

/-- C6: with forceDelete true, for every received message with a parsable
body, the very first call issued for that message is the delete of its
receipt handle — so the delete precedes any handler invocation and happens
whatever the handler then does. -/
theorem force_delete_deletes_first (st : Listener) (env : Env) (m : Message) (pd : JsonVal)
    (hfd : st.force_delete = true)
    (hp : env.jsonLoads m.body = Option.some pd) :
    (processMessage st env m).1.head? =
      Option.some (Action.deleteMessage st.queue_url m.receiptHandle) := by
  obtain ⟨tail, htr, -, -⟩ := processMessage_trace st env m pd hp
  rw [htr]
  unfold tryBlock
  rw [hfd]
  simp only [if_true]
  cases env.deleteResult m.receiptHandle <;>
    cases env.handle pd m.messageAttributes m.attributes <;> simp

/-- C6 witness: concrete forceDelete message whose handler raises. -/
theorem force_delete_deletes_first_witness :
    (processMessage stForce envValErr msgA).1.head? =
      Option.some (Action.deleteMessage stForce.queue_url msgA.receiptHandle) :=
  force_delete_deletes_first stForce envValErr msgA bodyVal rfl rfl

/-- C7: a message whose body fails to parse produces only the warning log —
no delete, no handler call, no publish — and the rest of the batch is
processed exactly as if the message were not there. -/
theorem unparsable_body_skipped (st : Listener) (env : Env) (m : Message) (ms : List Message)
    (hp : env.jsonLoads m.body = Option.none) :
    processMessage st env m = ([Action.logWarning parseWarnMsg], Option.none) ∧
    processBatch st env (m :: ms) =
      (Action.logWarning parseWarnMsg :: (processBatch st env ms).1,
        (processBatch st env ms).2) := by
  have h1 : processMessage st env m = ([Action.logWarning parseWarnMsg], Option.none) := by
    unfold processMessage
    rw [hp]
  refine ⟨h1, ?_⟩
  rw [processBatch_cons]
  simp [h1]

/-- C7 witness: concrete unparsable message followed by another message. -/
theorem unparsable_body_skipped_witness :
    processMessage stBase envBadJson msgA = ([Action.logWarning parseWarnMsg], Option.none) ∧
    processBatch stBase envBadJson [msgA, msgB] =
      (Action.logWarning parseWarnMsg :: (processBatch stBase envBadJson [msgB]).1,
        (processBatch stBase envBadJson [msgB]).2) :=
  unparsable_body_skipped stBase envBadJson msgA [msgB] rfl

/-- C9: with pairwise distinct receipt handles in the batch (as per receive),
the delete call for any batch message's receipt handle is issued at most
once while the batch is processed, for every configuration and every
handler outcome. -/
theorem delete_at_most_once (st : Listener) (env : Env) (batch : List Message) (m : Message)
    (hm : m ∈ batch)
    (hnd : (batch.map Message.receiptHandle).Nodup) :
    countDeletesFor m.receiptHandle (processBatch st env batch).1 ≤ 1 := by
  refine le_trans (processBatch_deletes_le st env m.receiptHandle batch) ?_
  exact List.nodup_iff_count_le_one.mp hnd m.receiptHandle

/-- C9 witness: a concrete two-message batch. -/
theorem delete_at_most_once_witness :
    countDeletesFor msgA.receiptHandle (processBatch stBase envOk [msgA, msgB]).1 ≤ 1 :=
  delete_at_most_once stBase envOk [msgA, msgB] msgA (by decide) (by decide)

/-- C10: every handler invocation for a parsed message passes exactly the
message's optional `MessageAttributes` and `Attributes` values — `none`
(Python None, not an empty mapping) when the corresponding key was absent
from the message, and the delivered mapping when it was present. -/
theorem handler_attribute_args (st : Listener) (env : Env) (m : Message) (pd : JsonVal)
    (hp : env.jsonLoads m.body = Option.some pd) :
    ∀ c ∈ handleCalls (processMessage st env m).1,
      c = (pd, m.messageAttributes, m.attributes) := by
  obtain ⟨tail, htr, -, hhc⟩ := processMessage_trace st env m pd hp
  rw [htr, handleCalls_append, hhc, List.append_nil]
  exact tryBlock_handleCalls st env m.receiptHandle pd m.messageAttributes m.attributes

/-- C10 witness: the concrete message lacking both keys is handled with
`none` for both arguments. -/
theorem handler_attribute_args_witness :
    (bodyVal, (Option.none : Option Attribs), (Option.none : Option Attribs)) =
      (bodyVal, msgA.messageAttributes, msgA.attributes) :=
  handler_attribute_args stBase envOk msgA bodyVal rfl
    (bodyVal, Option.none, Option.none) (by decide)

/-- C3 (counterexample): for `ValueError("bad id")` with error queue
"orders-errors", exactly one record is published, but its exception_type
field is `<class 'ValueError'>` — the Python `str` of the exception class
from `sys.exc_info()` — not the type name `ValueError` the claim states;
the error_message field is `('bad id',)` as claimed, and no delete call is
issued. -/
theorem failure_record_type_string_cex :
    publishCalls (processMessage stErrQ envValErr msgA).1 =
      [("orders-errors",
        { exception_type := "<class " ++ sq ++ "ValueError" ++ sq ++ ">"
          error_message := "(" ++ sq ++ "bad id" ++ sq ++ ",)" })] ∧
    (mkFailureRecord excValueError).exception_type ≠ "ValueError" ∧
    countDeletesFor msgA.receiptHandle (processMessage stErrQ envValErr msgA).1 = 0 := by
  refine ⟨by decide, by decide, by decide⟩

/-- C3 (amended): when the handler raises `ex` and an error queue is
configured (and, under forceDelete, the preceding delete call succeeded so
the handler actually ran), exactly one failure record is published to the
error queue, with exception_type the Python string of the exception's
class — `<class 'X'>` for class name X — and error_message the string of
the exception's argument tuple. -/
theorem failure_record_published_once (st : Listener) (env : Env) (m : Message) (pd : JsonVal)
    (ex : PyExc) (eq0 : String)
    (hp : env.jsonLoads m.body = Option.some pd)
    (heq : st.error_queue_name = Option.some eq0)
    (hne : eq0 ≠ "")
    (henv : env.handle pd m.messageAttributes m.attributes = Except.error ex)
    (hdel : st.force_delete = true → env.deleteResult m.receiptHandle = Except.ok ()) :
    publishCalls (processMessage st env m).1 =
      [(eq0, { exception_type := pyStrOfExcClass ex, error_message := pyReprArgs ex.args })] := by
  have htr : truthyName st.error_queue_name = true := by
    rw [heq]
    simp [truthyName, hne]
  have htb2 : (tryBlock st env m.receiptHandle pd m.messageAttributes m.attributes).2 =
      Option.some ex := by
    unfold tryBlock
    cases hfd : st.force_delete
    · simp [hfd, henv]
    · simp [hfd, hdel hfd, henv]
  unfold processMessage
  rw [hp]
  simp only [htb2, htr, if_true]
  cases hpub : env.publishResult (mkFailureRecord ex) <;>
    simp only [hpub] <;>
      rw [publishCalls_append, publishCalls_append, tryBlock_publishCalls] <;>
        simp [publishCalls, heq, mkFailureRecord]

/-- C3 witness: the `ValueError("bad id")` scenario. -/
theorem failure_record_published_once_witness :
    publishCalls (processMessage stErrQ envValErr msgA).1 =
      [("orders-errors",
        { exception_type := pyStrOfExcClass excValueError
          error_message := pyReprArgs excValueError.args })] :=
  failure_record_published_once stErrQ envValErr msgA bodyVal excValueError "orders-errors"
    rfl rfl (by decide) rfl (fun _ => rfl)

/-- C2 (counterexample): handler fails on the first message, the error-queue
publish raises, and contrary to the claim the failure is not logged and
the loop does not proceed: the second message is never handled and the
exception propagates out of the poll loop. -/
theorem publish_failure_kills_loop_cex :
    (processBatch stErrQ envPubFail [msgA, msgB]).2 = Option.some excPublish ∧
    handleCalls (processBatch stErrQ envPubFail [msgA, msgB]).1 =
      [(bodyVal, Option.none, Option.none)] ∧
    Action.logException excPublish ∉ (processBatch stErrQ envPubFail [msgA, msgB]).1 := by
  refine ⟨by decide, by decide, by decide⟩

/-- C2 (amended): a failure of the error-queue publish call is not retried,
but it is caught by nothing: the exception propagates out of the message
loop, aborting the processing of the remaining messages of the batch and
terminating the poll loop; only the handler's own exception was logged,
not the publish failure. -/
theorem publish_failure_propagates (st : Listener) (env : Env) (m : Message) (ms : List Message)
    (pd : JsonVal) (ex e : PyExc)
    (hp : env.jsonLoads m.body = Option.some pd)
    (htr : truthyName st.error_queue_name = true)
    (hex : (tryBlock st env m.receiptHandle pd m.messageAttributes m.attributes).2 =
      Option.some ex)
    (hpub : env.publishResult (mkFailureRecord ex) = Except.error e) :
    (processMessage st env m).2 = Option.some e ∧
    processBatch st env (m :: ms) = ((processMessage st env m).1, Option.some e) := by
  have h1 : (processMessage st env m).2 = Option.some e := by
    unfold processMessage
    rw [hp]
    simp only [hex, htr, if_true]
    simp only [mkFailureRecord] at hpub ⊢
    simp [hpub]
  refine ⟨h1, ?_⟩
  unfold processBatch
  simp [h1]

/-- C2 witness: the concrete failing-publish scenario. -/
theorem publish_failure_propagates_witness :
    (processMessage stErrQ envPubFail msgA).2 = Option.some excPublish ∧
    processBatch stErrQ envPubFail [msgA, msgB] =
      ((processMessage stErrQ envPubFail msgA).1, Option.some excPublish) :=
  publish_failure_propagates stErrQ envPubFail msgA [msgB] bodyVal excValueError excPublish
    rfl rfl (by decide) rfl

end Clutter
